import Mathlib

/-!
A verification development for the spatial-audio reverberation core of
`AudioReflector.cpp` (the "hifi" acoustic reflection engine).

The C++ source is embedded shallowly:

* `float` arithmetic is modelled over `ℚ` (exact arithmetic); every claim
  settled here is a control-flow or algebraic property that does not hinge
  on rounding of IEEE floats.
* External collaborators (the voxel octree's `findRayIntersection`, the
  GLM library's `glm::distance` and `glm::normalize`, the random number
  source `randFloatInRange`) and the one transcendental subexpression
  (the `powf`/`logf` geometric-spreading curve inside
  `getDistanceAttenuationCoefficient`) are fields of an `Env` record: the
  engine is a deterministic function of that environment, exactly as the
  C++ is a deterministic function of the octree, GLM and the RNG stream.
  `randFloatInRange` is modelled as an indexed stream of draws; the index
  is threaded through the engine in source call order.
* Menu options (`Menu::getInstance()->isOptionChecked(...)`) and the
  reflector's parameter members (`_preDelay`, `_soundMsPerMeter`, ...) are
  also `Env` fields, immutable during a trace.
* The aggregate statistics members (`_averageDelay`, `_maxAttenuation`,
  ...) are not modelled: no claim below mentions them, and they feed no
  branch of the embedded control flow.
-/

/-- 3-vector over ℚ, standing in for `glm::vec3`. -/
structure Vec3 where
  x : ℚ
  y : ℚ
  z : ℚ
deriving DecidableEq, Repr

namespace Vec3

def add (a b : Vec3) : Vec3 := ⟨a.x + b.x, a.y + b.y, a.z + b.z⟩

def sub (a b : Vec3) : Vec3 := ⟨a.x - b.x, a.y - b.y, a.z - b.z⟩

def smul (q : ℚ) (a : Vec3) : Vec3 := ⟨q * a.x, q * a.y, q * a.z⟩

def neg (a : Vec3) : Vec3 := ⟨-a.x, -a.y, -a.z⟩

def dot (a b : Vec3) : ℚ := a.x * b.x + a.y * b.y + a.z * b.z

def cross (a b : Vec3) : Vec3 :=
  ⟨a.y * b.z - a.z * b.y, a.z * b.x - a.x * b.z, a.x * b.y - a.y * b.x⟩

def zero : Vec3 := ⟨0, 0, 0⟩

end Vec3

/-- `glm::reflect(I, N) = I - 2 * dot(N, I) * N` (exact polynomial formula). -/
def reflect (i n : Vec3) : Vec3 := Vec3.sub i (Vec3.smul (2 * Vec3.dot n i) n)

/-- Quaternion over ℚ, standing in for `glm::quat`. -/
structure Quat where
  w : ℚ
  x : ℚ
  y : ℚ
  z : ℚ
deriving DecidableEq, Repr

/-- `glm` quaternion rotation of a vector:
`v' = v + 2 * cross(q.xyz, cross(q.xyz, v) + q.w * v)` (exact polynomial). -/
def rotateByQuat (q : Quat) (v : Vec3) : Vec3 :=
  let qv : Vec3 := ⟨q.x, q.y, q.z⟩
  Vec3.add v (Vec3.smul 2 (Vec3.cross qv (Vec3.add (Vec3.cross qv v) (Vec3.smul q.w v))))

def quatDot (a b : Quat) : ℚ := a.w * b.w + a.x * b.x + a.y * b.y + a.z * b.z

def quatIdentity : Quat := ⟨1, 0, 0, 0⟩

/-- The six voxel face tags (`BoxFace`). -/
inductive BoxFace where
  | MIN_X_FACE
  | MAX_X_FACE
  | MIN_Y_FACE
  | MAX_Y_FACE
  | MIN_Z_FACE
  | MAX_Z_FACE
deriving DecidableEq, Repr

/-- A successful `findRayIntersection` result: the hit distance and the face
struck.  (The `OctreeElement*` output is ignored by
`getSurfaceCharacteristics`, so it is not modelled.) -/
structure RayHit where
  distance : ℚ
  face : BoxFace
deriving DecidableEq, Repr

structure SurfaceCharacteristics where
  reflectiveRatio : ℚ
  absorptionRatio : ℚ
  diffusionRatio : ℚ
deriving DecidableEq, Repr

/-- The environment of one trace: the external collaborators
(octree oracle, GLM metric functions, RNG stream), the transcendental
attenuation curve, the reflector's parameter members and the menu options,
and the listener pose.  All of these are constant while the embedded
functions run, exactly as in one pass of the C++ code. -/
structure Env where
  /-- `_voxels->findRayIntersection(start, direction, ...)`. -/
  findRayIntersection : Vec3 → Vec3 → Option RayHit
  /-- `glm::distance` (external library; its value at each argument pair is
  a parameter because the Euclidean norm is irrational over ℚ). -/
  dist : Vec3 → Vec3 → ℚ
  /-- `glm::normalize` (external library, involves a square root). -/
  normalize : Vec3 → Vec3
  /-- The value of
  `powf(GEOMETRIC_AMPLITUDE_SCALAR, DISTANCE_SCALE_LOG + 0.5*logf(d*d)/logf(b) - 1)`
  as a function of the distance `d`: the one transcendental subexpression of
  `getDistanceAttenuationCoefficient`, kept abstract. -/
  attenuationCurve : ℚ → ℚ
  /-- `randFloatInRange(lo, hi)`: the k-th draw of the RNG stream. -/
  randFloatInRange : ℕ → ℚ → ℚ → ℚ
  /-- `_preDelay`. -/
  preDelay : ℚ
  /-- `_soundMsPerMeter`. -/
  soundMsPerMeter : ℚ
  /-- `_distanceAttenuationScalingFactor`. -/
  distanceScale : ℚ
  /-- `_diffusionFanout` (a C `int`). -/
  diffusionFanout : ℤ
  /-- `_absorptionRatio`. -/
  absorptionRatio : ℚ
  /-- `_diffusionRatio`. -/
  diffusionRatio : ℚ
  /-- Menu option `AudioSpatialProcessingPreDelay`. -/
  menuPreDelay : Bool
  /-- Menu option `AudioSpatialProcessingWithDiffusions`. -/
  menuWithDiffusions : Bool
  /-- Menu option `AudioSpatialProcessingSlightlyRandomSurfaces`. -/
  menuSlightlyRandomSurfaces : Bool
  /-- Menu option `AudioSpatialProcessingHeadOriented`. -/
  menuHeadOriented : Bool
  /-- Menu option `AudioSpatialProcessingSeparateEars`. -/
  menuSeparateEars : Bool
  /-- Menu option `AudioSpatialProcessingStereoSource`. -/
  menuStereoSource : Bool
  /-- `_myAvatar->getHead()->getPosition()`. -/
  headPosition : Vec3
  /-- `_myAvatar->getHead()->getLeftEarPosition()`. -/
  leftEarPosition : Vec3
  /-- `_myAvatar->getHead()->getRightEarPosition()`. -/
  rightEarPosition : Vec3
  /-- `_myAvatar->getOrientation()`. -/
  avatarOrientation : Quat
  /-- `_myAvatar->getHead()->getFinalOrientation()`. -/
  headOrientation : Quat

/-- `MINIMUM_ATTENUATION_TO_REFLECT = 1.0f / 256.0f`. -/
def MINIMUM_ATTENUATION_TO_REFLECT : ℚ := 1 / 256

/-- `MAXIMUM_DELAY_MS = 1000.0 * 20.0f`. -/
def MAXIMUM_DELAY_MS : ℚ := 20000

/-- `ABSOLUTE_MAXIMUM_BOUNCE_COUNT = 10`. -/
def ABSOLUTE_MAXIMUM_BOUNCE_COUNT : ℕ := 10

/-- `SLIGHTLY_SHORT = 0.999f`. -/
def SLIGHTLY_SHORT : ℚ := 999 / 1000

/-- `MSECS_PER_SECOND = 1000` (from the shared utilities header, not among
the provided files; its value is fixed by the spec's
`delaySamples = round(delayMs · sampleRate / 1000)`). -/
def MSECS_PER_SECOND : ℚ := 1000

/-- `AudioReflector::getDelayFromDistance`: `_soundMsPerMeter * distance`,
plus `_preDelay` only when the pre-delay menu option is on and the
diffusion menu option is off. -/
def getDelayFromDistance (env : Env) (distance : ℚ) : ℚ :=
  let delay := env.soundMsPerMeter * distance
  if env.menuPreDelay && !env.menuWithDiffusions then delay + env.preDelay else delay

/-- `AudioReflector::getDistanceAttenuationCoefficient`: the transcendental
`powf` curve (abstract field `attenuationCurve`), scaled by
`getDistanceAttenuationScalingFactor()` and clamped to 1. -/
def getDistanceAttenuationCoefficient (env : Env) (distance : ℚ) : ℚ :=
  min 1 (env.attenuationCurve distance * env.distanceScale)

/-- `AudioReflector::getSurfaceCharacteristics`: ignores the element hit and
returns the global parameters, with
`reflectiveRatio = 1 - (_absorptionRatio + _diffusionRatio)`. -/
def getSurfaceCharacteristics (env : Env) : SurfaceCharacteristics :=
  { reflectiveRatio := 1 - (env.absorptionRatio + env.diffusionRatio)
    absorptionRatio := env.absorptionRatio
    diffusionRatio := env.diffusionRatio }

/-- `AudioReflector::getBounceAttenuationCoefficient`:
`powf(material.reflectiveRatio, bounceCount)`. -/
def getBounceAttenuationCoefficient (env : Env) (bounceCount : ℕ) : ℚ :=
  (getSurfaceCharacteristics env).reflectiveRatio ^ bounceCount

/-- The six-way face dispatch shared by `getFaceNormal` and the diffusion
fan-out in `analyzePathsSingleStep`: component `n` on the face's axis (with
the face's sign) and components `a`, `b` on the two tangential axes. -/
def faceDirectedVec (face : BoxFace) (n a b : ℚ) : Vec3 :=
  match face with
  | BoxFace.MIN_X_FACE => ⟨-n, a, b⟩
  | BoxFace.MAX_X_FACE => ⟨n, a, b⟩
  | BoxFace.MIN_Y_FACE => ⟨a, -n, b⟩
  | BoxFace.MAX_Y_FACE => ⟨a, n, b⟩
  | BoxFace.MIN_Z_FACE => ⟨a, b, -n⟩
  | BoxFace.MAX_Z_FACE => ⟨a, b, n⟩

/-- `AudioReflector::getFaceNormal`.  When `wantSlightRandomness` the normal
axis magnitude is a draw from `[0.99, 1.0]` (the C++ ternary operator does
not evaluate the draw otherwise); the two sign draws always happen.  Returns
the normal and the advanced RNG index. -/
def getFaceNormal (env : Env) (face : BoxFace) (k : ℕ) : Vec3 × ℕ :=
  let want := env.menuSlightlyRandomSurfaces
  let normalLength : ℚ := if want then env.randFloatInRange k (99/100) 1 else 1
  let k := if want then k + 1 else k
  let remainder := (1 - normalLength) / 2
  let remainderSignA : ℚ := if env.randFloatInRange k (-1) 1 < 0 then -1 else 1
  let remainderSignB : ℚ := if env.randFloatInRange (k+1) (-1) 1 < 0 then -1 else 1
  (faceDirectedVec face normalLength (remainder * remainderSignA) (remainder * remainderSignB),
    k + 2)

/-- The exact axis-aligned unit normal of a face (the `getFaceNormal` of the
older `interface/src/AudioReflector.cpp` in the repository, which has no
jitter: the normal-axis component is ±1 and the tangential components 0). -/
def axisFaceNormal (face : BoxFace) : Vec3 := faceDirectedVec face 1 0 0

/-! ## Chain (non-diffusion) engine: `AudioReflector::calculateReflections` -/

/-- Ghost record of the quantities the chain loop computes at one bounce
(one iteration of the `while` loop that found an intersection).
`cumulativeDistance` is the value of the *outer* `totalDistance`
accumulator after its `+= glm::distance(start, end)` — the variable that is
immediately shadowed by the inner
`float totalDistance = earDistance + distance;`. -/
structure ChainBounce where
  endPoint : Vec3
  earDistance : ℚ
  hitDistance : ℚ
  cumulativeDistance : ℚ
  totalDelay : ℚ
  attenuation : ℚ
  bounceCount : ℕ
  accepted : Bool
deriving DecidableEq, Repr

/-- The `while` loop body of `AudioReflector::calculateReflections`,
structural recursion on a fuel argument.  The loop guard
`bounceCount < ABSOLUTE_MAXIMUM_BOUNCE_COUNT` together with `bounceCount`
being incremented on every recursive call bounds the iterations: starting
from `bounceCount = 1` with fuel `ABSOLUTE_MAXIMUM_BOUNCE_COUNT`, the fuel
strictly exceeds the remaining iteration count at every call, so the
fuel-0 case is never reached and the function equals the C++ loop.
Returns the ghost bounce trace and the advanced RNG index; the reflection
points the C++ accumulates are the accepted bounces' end points. -/
def calculateReflectionsLoop (env : Env) (earPosition : Vec3) :
    ℕ → Vec3 → Vec3 → ℚ → ℚ → ℚ → ℕ → ℕ → List ChainBounce × ℕ
  | 0, _, _, _, _, _, _, k => ([], k)
  | fuel + 1, start, direction, currentAttenuation, totalDelay, outerTotalDistance,
      bounceCount, k =>
    if MINIMUM_ATTENUATION_TO_REFLECT < currentAttenuation ∧
        totalDelay < MAXIMUM_DELAY_MS ∧ bounceCount < ABSOLUTE_MAXIMUM_BOUNCE_COUNT then
      match env.findRayIntersection start direction with
      | none => ([], k)      -- `currentAttenuation = 0.0f`; the loop guard then fails
      | some hit =>
        let endPoint := Vec3.add start (Vec3.smul (hit.distance * SLIGHTLY_SHORT) direction)
        let outerTotalDistance := outerTotalDistance + env.dist start endPoint
        let earDistance := env.dist endPoint earPosition
        -- the inner local `float totalDistance = earDistance + distance;`
        -- shadows the accumulator above
        let totalDistance := earDistance + hit.distance
        let totalDelay := getDelayFromDistance env totalDistance
        let currentAttenuation := getDistanceAttenuationCoefficient env totalDistance *
          getBounceAttenuationCoefficient env bounceCount
        if MINIMUM_ATTENUATION_TO_REFLECT < currentAttenuation ∧
            totalDelay < MAXIMUM_DELAY_MS then
          let bounce : ChainBounce :=
            { endPoint := endPoint, earDistance := earDistance, hitDistance := hit.distance
              cumulativeDistance := outerTotalDistance, totalDelay := totalDelay
              attenuation := currentAttenuation, bounceCount := bounceCount, accepted := true }
          let normalK := getFaceNormal env hit.face k
          let direction := env.normalize (reflect direction normalK.1)
          let rest := calculateReflectionsLoop env earPosition fuel endPoint direction
            currentAttenuation totalDelay outerTotalDistance (bounceCount + 1) normalK.2
          (bounce :: rest.1, rest.2)
        else
          -- the loop guard fails at its next evaluation (same two conjuncts)
          ([{ endPoint := endPoint, earDistance := earDistance, hitDistance := hit.distance
              cumulativeDistance := outerTotalDistance, totalDelay := totalDelay
              attenuation := currentAttenuation, bounceCount := bounceCount, accepted := false }], k)
    else ([], k)

/-- `AudioReflector::calculateReflections(earPosition, origin, originalDirection)`
with its initial values `currentAttenuation = 1`, `totalDistance = 0`,
`totalDelay = 0`, `bounceCount = 1`: the ghost bounce trace and the RNG index. -/
def calculateReflectionsTrace (env : Env) (earPosition origin originalDirection : Vec3)
    (k : ℕ) : List ChainBounce × ℕ :=
  calculateReflectionsLoop env earPosition ABSOLUTE_MAXIMUM_BOUNCE_COUNT origin
    originalDirection 1 0 0 1 k

/-- The reflection-point list `calculateReflections` returns: the end points
of the accepted bounces. -/
def calculateReflections (env : Env) (earPosition origin originalDirection : Vec3)
    (k : ℕ) : List Vec3 × ℕ :=
  let trace := calculateReflectionsTrace env earPosition origin originalDirection k
  ((trace.1.filter (fun b => b.accepted)).map (fun b => b.endPoint), trace.2)

/-! ## Diffusion engine: `AudioPath`, `analyzePaths`, `analyzePathsSingleStep` -/

/-- `AudioPath` (one in-flight ray of the diffusion engine). -/
structure AudioPath where
  startPoint : Vec3
  startDirection : Vec3
  startDelay : ℚ
  startAttenuation : ℚ
  lastPoint : Vec3
  lastDirection : Vec3
  lastDistance : ℚ
  lastDelay : ℚ
  lastAttenuation : ℚ
  bounceCount : ℕ
  finalized : Bool
  reflections : List Vec3
deriving DecidableEq, Repr

/-- The `AudioPath` constructor: `lastPoint`/`lastDirection`/... start equal
to the seed values, `finalized = false`, `reflections` empty. -/
def mkAudioPath (origin direction : Vec3) (attenuation delay distance : ℚ)
    (bounceCount : ℕ) : AudioPath :=
  { startPoint := origin, startDirection := direction, startDelay := delay
    startAttenuation := attenuation, lastPoint := origin, lastDirection := direction
    lastDistance := distance, lastDelay := delay, lastAttenuation := attenuation
    bounceCount := bounceCount, finalized := false, reflections := [] }

/-- `AudioPoint` (an audible point of the diffusion engine). -/
structure AudioPoint where
  location : Vec3
  delay : ℚ
  attenuation : ℚ
  distance : ℚ
deriving DecidableEq, Repr

/-- The diffusion engine's mutable state during a trace: `_audioPaths`,
`_audiblePoints`, and the RNG stream position. -/
structure ReflectorState where
  audioPaths : List AudioPath
  audiblePoints : List AudioPoint
  rngIndex : ℕ
deriving DecidableEq, Repr

/-- `AudioReflector::addSoundSource`: push a fresh `AudioPath` with bounce
count 0. -/
def addSoundSource (st : ReflectorState) (origin direction : Vec3)
    (initialAttenuation initialDelay initialDistance : ℚ) : ReflectorState :=
  { st with audioPaths :=
      st.audioPaths ++ [mkAudioPath origin direction initialAttenuation initialDelay initialDistance 0] }

/-- The diffusion fan-out loop: `count` children spawned at `endPoint`, each
with a direction drawn from the hit face's hemisphere (three RNG draws per
child, in source order: `randomness`, then the two signs), then normalized
and turned into a new sound source with the given attenuation, delay and
distance.  Returns the children in spawn order and the advanced RNG index. -/
def spawnDiffusions (env : Env) (endPoint : Vec3) (face : BoxFace)
    (attenuation delay distance : ℚ) : ℕ → ℕ → List AudioPath × ℕ
  | 0, k => ([], k)
  | count + 1, k =>
    let randomness := env.randFloatInRange k (1/2) 1
    let remainder := (1 - randomness) / 2
    let remainderSignA : ℚ := if env.randFloatInRange (k+1) (-1) 1 < 0 then -1 else 1
    let remainderSignB : ℚ := if env.randFloatInRange (k+2) (-1) 1 < 0 then -1 else 1
    let diffusion := env.normalize
      (faceDirectedVec face randomness (remainder * remainderSignA) (remainder * remainderSignB))
    let child := mkAudioPath endPoint diffusion attenuation delay distance 0
    let rest := spawnDiffusions env endPoint face attenuation delay distance count (k+3)
    (child :: rest.1, rest.2)

/-- The outcome of one step of one non-finalized path: the path's updated
record, the diffusion children it spawned, the audible point it emitted (at
most one), and the advanced RNG index. -/
structure PathStepResult where
  path : AudioPath
  children : List AudioPath
  emitted : List AudioPoint
  rngIndex : ℕ
deriving DecidableEq, Repr

/-- The body of `AudioReflector::analyzePathsSingleStep` for one
non-finalized path (the source mutates the path through its pointer and
pushes children and audible points onto the global collections; here the
pushes are returned and appended by `processPath`).  Mirrors the source
line by line: termination on `bounceCount > ABSOLUTE_MAXIMUM_BOUNCE_COUNT`
or on a missed intersection; otherwise the segment, delay, attenuation and
surface split are computed, the diffusion fan-out may spawn children, the
audible point may be emitted, and the path either advances or finalizes. -/
def pathOutcome (env : Env) (listenerPosition : Vec3) (path : AudioPath)
    (k : ℕ) : PathStepResult :=
  let start := path.lastPoint
  let direction := path.lastDirection
  let currentReflectiveAttenuation := path.lastAttenuation
  let currentDelay := path.lastDelay
  let pathDistance := path.lastDistance
  if path.bounceCount > ABSOLUTE_MAXIMUM_BOUNCE_COUNT then
    ⟨{ path with finalized := true }, [], [], k⟩
  else
    match env.findRayIntersection start direction with
    | none => ⟨{ path with finalized := true }, [], [], k⟩
    | some hit =>
      let endPoint := Vec3.add start (Vec3.smul (hit.distance * SLIGHTLY_SHORT) direction)
      let pathDistance := pathDistance + env.dist start endPoint
      let toListenerDistance := env.dist endPoint listenerPosition
      -- `currentDelay += getDelayFromDistance(distance)` (the raw hit distance)
      let currentDelay := currentDelay + getDelayFromDistance env hit.distance
      let material := getSurfaceCharacteristics env
      let reflectiveAttenuation := currentReflectiveAttenuation * material.reflectiveRatio
      let totalDiffusionAttenuation := currentReflectiveAttenuation * material.diffusionRatio
      let partialDiffusionAttenuation : ℚ :=
        if env.diffusionFanout < 1 then 0
        else totalDiffusionAttenuation / (env.diffusionFanout : ℚ)
      let totalDelay := currentDelay + getDelayFromDistance env toListenerDistance
      let toListenerAttenuation :=
        getDistanceAttenuationCoefficient env (toListenerDistance + pathDistance)
      let childrenK :=
        if MINIMUM_ATTENUATION_TO_REFLECT < partialDiffusionAttenuation * toListenerAttenuation ∧
            totalDelay < MAXIMUM_DELAY_MS then
          spawnDiffusions env endPoint hit.face partialDiffusionAttenuation currentDelay
            pathDistance env.diffusionFanout.toNat k
        else ([], k)
      let children := childrenK.1
      let k := childrenK.2
      if MINIMUM_ATTENUATION_TO_REFLECT <
          (reflectiveAttenuation + totalDiffusionAttenuation) * toListenerAttenuation ∧
          totalDelay < MAXIMUM_DELAY_MS then
        let point : AudioPoint :=
          { location := endPoint, delay := currentDelay
            attenuation := reflectiveAttenuation + totalDiffusionAttenuation
            distance := pathDistance }
        let path := { path with reflections := path.reflections ++ [endPoint] }
        if MINIMUM_ATTENUATION_TO_REFLECT < reflectiveAttenuation * toListenerAttenuation then
          let normalK := getFaceNormal env hit.face k
          ⟨{ path with
              lastDirection := env.normalize (reflect direction normalK.1)
              lastPoint := endPoint
              lastAttenuation := reflectiveAttenuation
              lastDelay := currentDelay
              lastDistance := pathDistance
              bounceCount := path.bounceCount + 1 }, children, [point], normalK.2⟩
        else ⟨{ path with finalized := true }, children, [point], k⟩
      else ⟨{ path with finalized := true }, children, [], k⟩

/-- A placeholder `AudioPath` for out-of-range list reads (never reached on
the indices `analyzePathsSingleStep` uses). -/
def dummyPath : AudioPath := mkAudioPath Vec3.zero Vec3.zero 0 0 0 0

/-- One `foreach` iteration of `analyzePathsSingleStep`: path `i` is read;
a finalized path is skipped; otherwise it counts as active and its
`pathOutcome` is applied — the path record is updated in place, the spawned
children are appended to `_audioPaths`, the emitted point to
`_audiblePoints`. -/
def processPath (env : Env) (listenerPosition : Vec3) (st : ReflectorState)
    (i : ℕ) : ReflectorState × Bool :=
  let path := st.audioPaths.getD i dummyPath
  if path.finalized then (st, false)
  else
    let r := pathOutcome env listenerPosition path st.rngIndex
    ({ audioPaths := (st.audioPaths.set i r.path) ++ r.children
       audiblePoints := st.audiblePoints ++ r.emitted
       rngIndex := r.rngIndex }, true)

/-- The `foreach` loop of `analyzePathsSingleStep` over a list of indices
(children appended during the pass lie beyond the range and are not
visited, exactly like Qt's `foreach` over a copied vector).  Returns the
state and the count of paths that were active when visited. -/
def processFrom (env : Env) (listenerPosition : Vec3) :
    ReflectorState → ℕ → List ℕ → ReflectorState × ℕ
  | st, active, [] => (st, active)
  | st, active, i :: rest =>
    let r := processPath env listenerPosition st i
    processFrom env listenerPosition r.1 (active + if r.2 then 1 else 0) rest

/-- `AudioReflector::analyzePathsSingleStep`. -/
def analyzePathsSingleStep (env : Env) (listenerPosition : Vec3)
    (st : ReflectorState) : ReflectorState × ℕ :=
  processFrom env listenerPosition st 0 (List.range st.audioPaths.length)

/-- `IDENTITY_RIGHT` (shared utilities header, not among the provided
files; the axial basis the orientation rotates, per the spec's §4.1 seed
directions). -/
def IDENTITY_RIGHT : Vec3 := ⟨1, 0, 0⟩

/-- `IDENTITY_UP` (see `IDENTITY_RIGHT`). -/
def IDENTITY_UP : Vec3 := ⟨0, 1, 0⟩

/-- `IDENTITY_FRONT` (see `IDENTITY_RIGHT`). -/
def IDENTITY_FRONT : Vec3 := ⟨0, 0, -1⟩

/-- The 14 seed directions of `analyzePaths`, in its `addSoundSource`
order: right, front, up, down, back, left, then the eight diagonals. -/
def seedDirections (env : Env) (orientation : Quat) : List Vec3 :=
  let right := env.normalize (rotateByQuat orientation IDENTITY_RIGHT)
  let up := env.normalize (rotateByQuat orientation IDENTITY_UP)
  let front := env.normalize (rotateByQuat orientation IDENTITY_FRONT)
  let left := Vec3.neg right
  let down := Vec3.neg up
  let back := Vec3.neg front
  let frontRightUp := env.normalize (Vec3.add (Vec3.add front right) up)
  let frontLeftUp := env.normalize (Vec3.add (Vec3.add front left) up)
  let backRightUp := env.normalize (Vec3.add (Vec3.add back right) up)
  let backLeftUp := env.normalize (Vec3.add (Vec3.add back left) up)
  let frontRightDown := env.normalize (Vec3.add (Vec3.add front right) down)
  let frontLeftDown := env.normalize (Vec3.add (Vec3.add front left) down)
  let backRightDown := env.normalize (Vec3.add (Vec3.add back right) down)
  let backLeftDown := env.normalize (Vec3.add (Vec3.add back left) down)
  [right, front, up, down, back, left,
   frontRightUp, frontLeftUp, backRightUp, backLeftUp,
   frontRightDown, frontLeftDown, backRightDown, backLeftDown]

/-- The seeding phase of `analyzePaths`: cleared collections, then one
sound source per seed direction with initial attenuation 1, initial delay
`preDelay` when the pre-delay option is on (else 0), initial distance 0. -/
def seedState (env : Env) (origin : Vec3) (orientation : Quat) (k : ℕ) : ReflectorState :=
  let preDelay : ℚ := if env.menuPreDelay then env.preDelay else 0
  (seedDirections env orientation).foldl
    (fun st direction => addSoundSource st origin direction 1 preDelay 0)
    { audioPaths := [], audiblePoints := [], rngIndex := k }

/-- The `while (activePaths > 0)` loop of `analyzePaths`, with explicit
fuel: `none` when the fuel runs out before a pass observes zero active
paths (the C++ loop simply has not terminated by then). -/
def analyzeLoop (env : Env) (listenerPosition : Vec3) :
    ℕ → ReflectorState → Option ReflectorState
  | 0, _ => none
  | fuel + 1, st =>
    let r := analyzePathsSingleStep env listenerPosition st
    if r.2 = 0 then some r.1 else analyzeLoop env listenerPosition fuel r.1

/-- `AudioReflector::analyzePaths` (the diffusion trace): seed the 14
primary paths, then step every active path once per pass until no pass
finds an active path.  The initial `activePaths = _audioPaths.size() = 14`
is positive, so the loop body always runs at least once. -/
def analyzePaths (env : Env) (origin : Vec3) (orientation : Quat)
    (listenerPosition : Vec3) (k : ℕ) (fuel : ℕ) : Option ReflectorState :=
  analyzeLoop env listenerPosition fuel (seedState env origin orientation k)

/-- `AudioReflector::countDiffusionPaths`: the paths whose `startPoint`
differs from `_origin`. -/
def countDiffusionPaths (origin : Vec3) (paths : List AudioPath) : ℕ :=
  (paths.filter (fun p => p.startPoint ≠ origin)).length

/-! ## Sample injector: `echoReflections` and `injectAudiblePoint` -/

/-- An inbound audio batch: its byte size (`samples.size()`) and the 16-bit
sample at each index of the `int16_t*` view of its bytes. -/
structure AudioBatch where
  sizeBytes : ℕ
  data : ℕ → ℤ

/-- `NUMBER_OF_CHANNELS = 2`. -/
def NUMBER_OF_CHANNELS : ℕ := 2

/-- Truncation toward zero: the C conversion of a float expression to
`int`. -/
def ratTrunc (q : ℚ) : ℤ := if 0 ≤ q then ⌊q⌋ else ⌈q⌉

/-- Reduction of an integer into a signed 16-bit slot (the spec's §4.5
numeric note fixes wrapping as the reference behavior for the float →
`int16_t` store). -/
def wrapInt16 (z : ℤ) : ℤ := (z + 32768) % 65536 - 32768

/-- The float → `int16_t` store `buffer[j] = sample * attenuation`. -/
def int16OfFloat (q : ℚ) : ℤ := wrapInt16 (ratTrunc q)

/-- `unsigned int sampleTime + int delay` (32-bit unsigned wrap-around). -/
def addUInt32 (sampleTime : ℕ) (delay : ℤ) : ℕ :=
  (((sampleTime : ℤ) + delay) % 4294967296).toNat

/-- One `_audio->addSpatialAudioToBuffer(anchor, buffer, sampleCount)`
call: the anchor, the initialized 16-bit slots of the buffer (the loop
writes slots `0 .. 2*totalNumberOfStereoSamples - 1`; later slots of the
resized byte array stay uninitialized and are not modelled), and the
sample count passed to the sink. -/
structure Submission where
  sampleTimeAnchor : ℕ
  written : List ℤ
  sampleCount : ℕ
deriving DecidableEq, Repr

/-- The attenuate-and-split loop shared by `echoReflections` and
`injectAudiblePoint`: for each stereo frame, the left output gets
`leftSample * leftAttenuation` in its even slot and 0 in its odd slot, the
right output 0 in its even slot and `rightSample * rightAttenuation` in its
odd slot; `rightSample` duplicates the left unless the stereo-source
option is on. -/
def attenuatedBuffers (env : Env) (batch : AudioBatch)
    (leftAttenuation rightAttenuation : ℚ) : List ℤ × List ℤ :=
  let totalNumberOfStereoSamples := batch.sizeBytes / (2 * NUMBER_OF_CHANNELS)
  let frames := List.range totalNumberOfStereoSamples
  ((frames.map (fun sample =>
      let leftSample := batch.data (sample * NUMBER_OF_CHANNELS)
      [int16OfFloat ((leftSample : ℚ) * leftAttenuation), 0])).flatten,
   (frames.map (fun sample =>
      let leftSample := batch.data (sample * NUMBER_OF_CHANNELS)
      let rightSample := if env.menuStereoSource
        then batch.data (sample * NUMBER_OF_CHANNELS + 1) else leftSample
      [0, int16OfFloat ((rightSample : ℚ) * rightAttenuation)])).flatten)

/-- The ear positions `echoReflections` and `injectAudiblePoint` read: the
true ear positions when the separate-ears option is on, else the head
position for both. -/
def earPositions (env : Env) : Vec3 × Vec3 :=
  let rightEarPosition := if env.menuSeparateEars then env.rightEarPosition else env.headPosition
  let leftEarPosition := if env.menuSeparateEars then env.leftEarPosition else env.headPosition
  (leftEarPosition, rightEarPosition)

/-- Ghost record of one bounce of `echoReflections`: the per-ear distance
accumulators after their `+= glm::distance(start, end)`, the ear
distances, delays and attenuations, and the two submissions made. -/
structure EchoBounce where
  endPoint : Vec3
  bounceCount : ℕ
  leftDistance : ℚ
  rightDistance : ℚ
  leftEarDistance : ℚ
  rightEarDistance : ℚ
  leftEarDelayMsecs : ℚ
  rightEarDelayMsecs : ℚ
  leftEarAttenuation : ℚ
  rightEarAttenuation : ℚ
  leftSubmission : Submission
  rightSubmission : Submission
deriving DecidableEq, Repr

/-- The `foreach (glm::vec3 end, reflections)` loop of
`AudioReflector::echoReflections`, carrying `start`, the two per-ear
distance accumulators and `bounceCount`. -/
def echoReflectionsLoop (env : Env) (batch : AudioBatch) (sampleTime : ℕ)
    (sampleRate : ℤ) (leftEarPosition rightEarPosition : Vec3) :
    Vec3 → ℚ → ℚ → ℕ → List Vec3 → List EchoBounce
  | _, _, _, _, [] => []
  | start, rightDistance, leftDistance, bounceCount, endPoint :: rest =>
    let bounceCount := bounceCount + 1
    let rightDistance := rightDistance + env.dist start endPoint
    let leftDistance := leftDistance + env.dist start endPoint
    let rightEarDistance := env.dist endPoint rightEarPosition
    let leftEarDistance := env.dist endPoint leftEarPosition
    let rightTotalDistance := rightEarDistance + rightDistance
    let leftTotalDistance := leftEarDistance + leftDistance
    let rightEarDelayMsecs := getDelayFromDistance env rightTotalDistance
    let leftEarDelayMsecs := getDelayFromDistance env leftTotalDistance
    let rightEarDelay := ratTrunc (rightEarDelayMsecs * (sampleRate : ℚ) / MSECS_PER_SECOND)
    let leftEarDelay := ratTrunc (leftEarDelayMsecs * (sampleRate : ℚ) / MSECS_PER_SECOND)
    let bounceAttenuation := getBounceAttenuationCoefficient env bounceCount
    let rightEarAttenuation :=
      getDistanceAttenuationCoefficient env rightTotalDistance * bounceAttenuation
    let leftEarAttenuation :=
      getDistanceAttenuationCoefficient env leftTotalDistance * bounceAttenuation
    let buffers := attenuatedBuffers env batch leftEarAttenuation rightEarAttenuation
    let totalNumberOfSamples := batch.sizeBytes / 2
    let bounce : EchoBounce :=
      { endPoint := endPoint, bounceCount := bounceCount
        leftDistance := leftDistance, rightDistance := rightDistance
        leftEarDistance := leftEarDistance, rightEarDistance := rightEarDistance
        leftEarDelayMsecs := leftEarDelayMsecs, rightEarDelayMsecs := rightEarDelayMsecs
        leftEarAttenuation := leftEarAttenuation, rightEarAttenuation := rightEarAttenuation
        leftSubmission := ⟨addUInt32 sampleTime leftEarDelay, buffers.1, totalNumberOfSamples⟩
        rightSubmission := ⟨addUInt32 sampleTime rightEarDelay, buffers.2, totalNumberOfSamples⟩ }
    bounce :: echoReflectionsLoop env batch sampleTime sampleRate leftEarPosition
      rightEarPosition endPoint rightDistance leftDistance bounceCount rest

/-- `AudioReflector::echoReflections(origin, reflections, samples,
sampleTime, sampleRate)`: walk one chain's reflection list from the origin
with both per-ear accumulators starting at 0 and `bounceCount` at 0. -/
def echoReflections (env : Env) (origin : Vec3) (reflections : List Vec3)
    (batch : AudioBatch) (sampleTime : ℕ) (sampleRate : ℤ) : List EchoBounce :=
  let ears := earPositions env
  echoReflectionsLoop env batch sampleTime sampleRate ears.1 ears.2
    origin 0 0 0 reflections

/-- `AudioReflector::injectAudiblePoint(audiblePoint, samples, sampleTime,
sampleRate)`: the two submissions it makes (left ear first), with the
per-ear delay `getDelayFromDistance(earDistance) + audiblePoint.delay` and
the per-ear attenuation
`audiblePoint.attenuation * getDistanceAttenuationCoefficient(earDistance + audiblePoint.distance)`. -/
def injectAudiblePoint (env : Env) (audiblePoint : AudioPoint)
    (batch : AudioBatch) (sampleTime : ℕ) (sampleRate : ℤ) : List Submission :=
  let ears := earPositions env
  let totalNumberOfSamples := batch.sizeBytes / 2
  let rightEarDistance := env.dist audiblePoint.location ears.2
  let leftEarDistance := env.dist audiblePoint.location ears.1
  let rightEarDelayMsecs := getDelayFromDistance env rightEarDistance + audiblePoint.delay
  let leftEarDelayMsecs := getDelayFromDistance env leftEarDistance + audiblePoint.delay
  let rightEarDelay := ratTrunc (rightEarDelayMsecs * (sampleRate : ℚ) / MSECS_PER_SECOND)
  let leftEarDelay := ratTrunc (leftEarDelayMsecs * (sampleRate : ℚ) / MSECS_PER_SECOND)
  let rightEarAttenuation := audiblePoint.attenuation *
    getDistanceAttenuationCoefficient env (rightEarDistance + audiblePoint.distance)
  let leftEarAttenuation := audiblePoint.attenuation *
    getDistanceAttenuationCoefficient env (leftEarDistance + audiblePoint.distance)
  let buffers := attenuatedBuffers env batch leftEarAttenuation rightEarAttenuation
  [⟨addUInt32 sampleTime leftEarDelay, buffers.1, totalNumberOfSamples⟩,
   ⟨addUInt32 sampleTime rightEarDelay, buffers.2, totalNumberOfSamples⟩]

/-! ## Controller: staleness gating and the two `calculateAllReflections` -/

/-- Position-similarity threshold.  Modelled from the spec:
`isSimilarPosition` is declared in the missing `AudioReflector.h`; the
spec's §9 suggests an absolute position threshold of 1 cm. -/
def SIMILAR_POSITION_EPSILON : ℚ := 1 / 100

/-- Orientation-similarity threshold.  Modelled from the spec: the spec's
§9 suggests a quaternion dot-product threshold of 0.9999. -/
def SIMILAR_ORIENTATION_EPSILON : ℚ := 9999 / 10000

/-- Modelled from the spec: `isSimilarPosition` (declared in the missing
`AudioReflector.h`) — positions are similar when they are within a small
absolute distance of one another. -/
def isSimilarPosition (env : Env) (a b : Vec3) : Bool :=
  env.dist a b ≤ SIMILAR_POSITION_EPSILON

/-- Modelled from the spec: `isSimilarOrientation` (declared in the missing
`AudioReflector.h`) — orientations are similar when their quaternion dot
product is at least the threshold. -/
def isSimilarOrientation (a b : Quat) : Bool :=
  SIMILAR_ORIENTATION_EPSILON ≤ quatDot a b

/-- The `AudioReflector`'s cached members that survive between traces: the
pose of the last trace, its engine flag, the trace results of both engines,
the derived `_reflections` and `_diffusionPathCount` counters, and the RNG
stream position.  `chainReflections` holds the 14 chain-engine reflection
lists in the assignment order of `calculateAllReflections` (right, the
eight diagonals, front, back, left, up, down). -/
structure ControllerState where
  origin : Vec3
  orientation : Quat
  listenerPosition : Vec3
  withDiffusion : Bool
  reflections : ℕ
  diffusionPathCount : ℕ
  audioPaths : List AudioPath
  audiblePoints : List AudioPoint
  chainReflections : List (List Vec3)
  rngIndex : ℕ
deriving DecidableEq, Repr

/-- The controller state after the constructor: empty collections, zero
counters, default-constructed pose (zero vectors, identity quaternion),
diffusion flag false. -/
def initialControllerState : ControllerState :=
  { origin := Vec3.zero, orientation := quatIdentity, listenerPosition := Vec3.zero
    withDiffusion := false, reflections := 0, diffusionPathCount := 0
    audioPaths := [], audiblePoints := [], chainReflections := [], rngIndex := 0 }

/-- The `shouldRecalc` condition shared by `calculateAllReflections` and
`newCalculateAllReflections`:
`_reflections == 0 || !isSimilarPosition(origin, _origin) ||
!isSimilarOrientation(orientation, _orientation) ||
!isSimilarPosition(listenerPosition, _listenerPosition) ||
(withDiffusion != _withDiffusion)`. -/
def shouldRecalc (env : Env) (cs : ControllerState) (origin : Vec3)
    (orientation : Quat) (listenerPosition : Vec3) (withDiffusion : Bool) : Bool :=
  (cs.reflections == 0)
    || !isSimilarPosition env origin cs.origin
    || !isSimilarOrientation orientation cs.orientation
    || !isSimilarPosition env listenerPosition cs.listenerPosition
    || (withDiffusion != cs.withDiffusion)

/-- The pose inputs both controller entry points read each call: the
orientation source selected by the head-oriented option, and the head
position as both `origin` and `listenerPosition`. -/
def currentPose (env : Env) : Vec3 × Quat × Vec3 :=
  let orientation := if env.menuHeadOriented then env.headOrientation else env.avatarOrientation
  (env.headPosition, orientation, env.headPosition)

/-- `AudioReflector::newCalculateAllReflections` (the diffusion
controller entry): gate on `shouldRecalc` with `withDiffusion = true`; when
stale, store the pose and flag and run `analyzePaths`, then set
`_reflections = _audiblePoints.size()` and
`_diffusionPathCount = countDiffusionPaths()`; otherwise change nothing.
`none` when the trace loop does not finish within `fuel` passes. -/
def newCalculateAllReflections (env : Env) (cs : ControllerState)
    (fuel : ℕ) : Option ControllerState :=
  let pose := currentPose env
  let origin := pose.1
  let orientation := pose.2.1
  let listenerPosition := pose.2.2
  let withDiffusion := true
  if shouldRecalc env cs origin orientation listenerPosition withDiffusion then
    match analyzePaths env origin orientation listenerPosition cs.rngIndex fuel with
    | none => none
    | some s => some
      { cs with
        origin := origin
        orientation := orientation
        listenerPosition := listenerPosition
        withDiffusion := withDiffusion
        audioPaths := s.audioPaths
        audiblePoints := s.audiblePoints
        rngIndex := s.rngIndex
        reflections := s.audiblePoints.length
        diffusionPathCount := countDiffusionPaths origin s.audioPaths }
  else some cs

/-- The 14 chain traces of `calculateAllReflections`, in its assignment
order (right, frontRightUp, frontLeftUp, backRightUp, backLeftUp,
frontRightDown, frontLeftDown, backRightDown, backLeftDown, front, back,
left, up, down), threading the RNG index through in that order. -/
def chainTraces (env : Env) (listenerPosition origin : Vec3)
    (orientation : Quat) (k : ℕ) : List (List Vec3) × ℕ :=
  let right := env.normalize (rotateByQuat orientation IDENTITY_RIGHT)
  let up := env.normalize (rotateByQuat orientation IDENTITY_UP)
  let front := env.normalize (rotateByQuat orientation IDENTITY_FRONT)
  let left := Vec3.neg right
  let down := Vec3.neg up
  let back := Vec3.neg front
  let frontRightUp := env.normalize (Vec3.add (Vec3.add front right) up)
  let frontLeftUp := env.normalize (Vec3.add (Vec3.add front left) up)
  let backRightUp := env.normalize (Vec3.add (Vec3.add back right) up)
  let backLeftUp := env.normalize (Vec3.add (Vec3.add back left) up)
  let frontRightDown := env.normalize (Vec3.add (Vec3.add front right) down)
  let frontLeftDown := env.normalize (Vec3.add (Vec3.add front left) down)
  let backRightDown := env.normalize (Vec3.add (Vec3.add back right) down)
  let backLeftDown := env.normalize (Vec3.add (Vec3.add back left) down)
  [right, frontRightUp, frontLeftUp, backRightUp, backLeftUp,
   frontRightDown, frontLeftDown, backRightDown, backLeftDown,
   front, back, left, up, down].foldl
    (fun (acc : List (List Vec3) × ℕ) direction =>
      let r := calculateReflections env listenerPosition origin direction acc.2
      (acc.1 ++ [r.1], r.2))
    ([], k)

/-- `AudioReflector::calculateAllReflections` (the chain controller
entry): gate on `shouldRecalc` with `withDiffusion = false`; when stale,
store the pose and flag, run the 14 chain traces, and let `reset()`
recompute `_reflections` as the sum of the list sizes (it also zeroes
`_diffusionPathCount`); otherwise change nothing. -/
def calculateAllReflections (env : Env) (cs : ControllerState) : ControllerState :=
  let pose := currentPose env
  let origin := pose.1
  let orientation := pose.2.1
  let listenerPosition := pose.2.2
  let withDiffusion := false
  if shouldRecalc env cs origin orientation listenerPosition withDiffusion then
    let traces := chainTraces env listenerPosition origin orientation cs.rngIndex
    { cs with
      origin := origin
      orientation := orientation
      listenerPosition := listenerPosition
      withDiffusion := withDiffusion
      chainReflections := traces.1
      rngIndex := traces.2
      reflections := (traces.1.map List.length).sum
      diffusionPathCount := 0 }
  else cs

/-! ## Definitions following the spec's words (for comparison against the
source-derived definitions above) -/

/-- Rounding to the nearest integer, following the spec's words
`delaySamples = round(delayMs · sampleRate / 1000)` (§4.5 step 4). -/
def roundNearestSpec (q : ℚ) : ℤ := ⌊q + 1/2⌋

/-- The spec's staleness predicate, following its words (§4.4):
`stale = (no prior trace) OR (position moved beyond ε) OR (orientation
rotated beyond ε_q) OR (ear position moved beyond ε) OR (withDiffusion
flipped)`.  `hasPriorTrace` is the spec's "no prior trace" notion; the
pose comparisons reuse the similarity predicates. -/
def specStale (env : Env) (hasPriorTrace : Bool) (cs : ControllerState)
    (origin : Vec3) (orientation : Quat) (listenerPosition : Vec3)
    (withDiffusion : Bool) : Bool :=
  !hasPriorTrace
    || !isSimilarPosition env origin cs.origin
    || !isSimilarOrientation orientation cs.orientation
    || !isSimilarPosition env listenerPosition cs.listenerPosition
    || (withDiffusion != cs.withDiffusion)

/-! ## Concrete test environments (fixtures for counterexamples and
witnesses).  `dist` is instantiated with the taxicab metric — an arbitrary
concrete choice for the abstract `glm::distance` parameter — and
`normalize` with the identity; the RNG stream always returns the lower
bound of the requested range. -/

/-- Taxicab metric: a concrete, exactly computable stand-in used to
instantiate the abstract `dist` field in fixtures. -/
def taxicab (a b : Vec3) : ℚ := |b.x - a.x| + |b.y - a.y| + |b.z - a.z|

/-- Fixture: free space (the oracle never hits), diffusion mode, flat
attenuation curve, all jitter off, listener at the origin. -/
def baseEnv : Env :=
  { findRayIntersection := fun _ _ => none
    dist := taxicab
    normalize := id
    attenuationCurve := fun _ => 1
    randFloatInRange := fun _ lo _ => lo
    preDelay := 20
    soundMsPerMeter := 3
    distanceScale := 1
    diffusionFanout := 5
    absorptionRatio := 0
    diffusionRatio := 0
    menuPreDelay := false
    menuWithDiffusions := true
    menuSlightlyRandomSurfaces := false
    menuHeadOriented := false
    menuSeparateEars := false
    menuStereoSource := false
    headPosition := Vec3.zero
    leftEarPosition := Vec3.zero
    rightEarPosition := Vec3.zero
    avatarOrientation := quatIdentity
    headOrientation := quatIdentity }

/-- Fixture for the chain engine: every ray hits a wall at distance 1000
on a `MAX_X` face; chain (non-diffusion) menu mode; the attenuation curve
is the constant 1/2 so every bounce stays above the threshold. -/
def envChainWall : Env :=
  { baseEnv with
    findRayIntersection := fun _ _ => some ⟨1000, BoxFace.MAX_X_FACE⟩
    attenuationCurve := fun _ => 1/2
    menuWithDiffusions := false }

/-- Fixture for the diffusion engine: every ray hits at distance 0 (the
ray starts on a surface), fully reflective surface
(`absorption = diffusion = 0`), flat attenuation curve: every path bounces
until the bounce-count guard stops it. -/
def envZeroHit : Env :=
  { baseEnv with findRayIntersection := fun _ _ => some ⟨0, BoxFace.MAX_X_FACE⟩ }

/-- Fixture for the diffusion engine's step arithmetic: a wall at distance
1000, attenuation curve 1/2 (so paths survive), diffusion mode. -/
def envDiffusionWall : Env :=
  { baseEnv with
    findRayIntersection := fun _ _ => some ⟨1000, BoxFace.MAX_X_FACE⟩
    attenuationCurve := fun _ => 1/2 }

/-- Fixture for the diffusion explosion: every ray hits at distance 0,
`diffusionRatio = 1`, `absorptionRatio = 0` (so `reflectiveRatio = 0`) and
`diffusionFanout = 1`: every active path dies into exactly one child of
identical energy, forever. -/
def envExplosion : Env :=
  { baseEnv with
    findRayIntersection := fun _ _ => some ⟨0, BoxFace.MAX_X_FACE⟩
    absorptionRatio := 0
    diffusionRatio := 1
    diffusionFanout := 1 }

/-- Fixture for the injector: every distance evaluates to 1 metre, flat
attenuation curve, stereo source on. -/
def envInject : Env :=
  { baseEnv with dist := fun _ _ => 1, menuStereoSource := true }

/-- The immortal diffusion child of `envExplosion`: spawned at the origin
with direction `normalize(randomness, remainder·signA, remainder·signB)` =
`(1/2, -1/4, -1/4)` (the fixture RNG draws the lower bounds 1/2, -1, -1),
full attenuation 1, zero delay and distance. -/
def explosionChild : AudioPath := mkAudioPath Vec3.zero ⟨1/2, -1/4, -1/4⟩ 1 0 0 0

/-- Placeholder records for `getD`/`headD` reads in closed statements. -/
def dummyChainBounce : ChainBounce := ⟨Vec3.zero, 0, 0, 0, 0, 0, 0, false⟩

def dummySubmission : Submission := ⟨0, [], 0⟩

def dummyEchoBounce : EchoBounce :=
  ⟨Vec3.zero, 0, 0, 0, 0, 0, 0, 0, 0, 0, dummySubmission, dummySubmission⟩

def emptyReflectorState : ReflectorState := ⟨[], [], 0⟩

/-! ## The per-step quantities of `analyzePathsSingleStep` (named after the
source locals of lines 829-862), used to state the claims about one
diffusion step. -/

/-- `end = start + direction * (distance * SLIGHTLY_SHORT)`. -/
def stepEndPoint (path : AudioPath) (hit : RayHit) : Vec3 :=
  Vec3.add path.lastPoint (Vec3.smul (hit.distance * SLIGHTLY_SHORT) path.lastDirection)

/-- `pathDistance += glm::distance(start, end)`. -/
def stepPathDistance (env : Env) (path : AudioPath) (hit : RayHit) : ℚ :=
  path.lastDistance + env.dist path.lastPoint (stepEndPoint path hit)

/-- `currentDelay += getDelayFromDistance(distance)` (the raw hit
distance). -/
def stepCurrentDelay (env : Env) (path : AudioPath) (hit : RayHit) : ℚ :=
  path.lastDelay + getDelayFromDistance env hit.distance

/-- `reflectiveAttenuation = currentReflectiveAttenuation * material.reflectiveRatio`. -/
def stepReflectiveAttenuation (env : Env) (path : AudioPath) : ℚ :=
  path.lastAttenuation * (getSurfaceCharacteristics env).reflectiveRatio

/-- `totalDiffusionAttenuation = currentReflectiveAttenuation * material.diffusionRatio`. -/
def stepTotalDiffusionAttenuation (env : Env) (path : AudioPath) : ℚ :=
  path.lastAttenuation * (getSurfaceCharacteristics env).diffusionRatio

/-- `toListenerDistance = glm::distance(end, _listenerPosition)`. -/
def stepToListenerDistance (env : Env) (listenerPosition : Vec3) (path : AudioPath)
    (hit : RayHit) : ℚ :=
  env.dist (stepEndPoint path hit) listenerPosition

/-- `totalDelay = currentDelay + getDelayFromDistance(toListenerDistance)`. -/
def stepTotalDelay (env : Env) (listenerPosition : Vec3) (path : AudioPath)
    (hit : RayHit) : ℚ :=
  stepCurrentDelay env path hit +
    getDelayFromDistance env (stepToListenerDistance env listenerPosition path hit)

/-- `toListenerAttenuation = getDistanceAttenuationCoefficient(toListenerDistance + pathDistance)`. -/
def stepToListenerAttenuation (env : Env) (listenerPosition : Vec3) (path : AudioPath)
    (hit : RayHit) : ℚ :=
  getDistanceAttenuationCoefficient env
    (stepToListenerDistance env listenerPosition path hit + stepPathDistance env path hit)

/-- A seed path fired to the right from the origin (fixture). -/
def seedRightPath : AudioPath := mkAudioPath Vec3.zero ⟨1, 0, 0⟩ 1 0 0 0

/-- The first bounce record of the chain engine run against the
`envChainWall` fixture (seed direction `(1,0,0)`, listener and origin at
zero). -/
def chainWallBounce1 : ChainBounce :=
  (calculateReflectionsTrace envChainWall Vec3.zero Vec3.zero ⟨1, 0, 0⟩ 0).1.headD
    dummyChainBounce

/-- A malformed inbound batch: 6 bytes (3 int16 samples), not a multiple
of `channels * sizeof(int16) = 4`. -/
def malformedBatch : AudioBatch := ⟨6, fun i => [1000, 2000, 3000].getD i 0⟩

/-- An audible point fixture with attenuation 1/2. -/
def injectPointHalf : AudioPoint := ⟨⟨5, 0, 0⟩, 0, 1/2, 0⟩

/-- The audible point every explosion-fixture step emits. -/
def explosionEmit : AudioPoint := ⟨Vec3.zero, 0, 1, 0⟩

/-- The invariant satisfied by every active path of the explosion fixture:
not finalized, bounce count 0, full attenuation, zero delay and distance,
sitting at the origin. -/
def PredE6 (p : AudioPath) : Prop :=
  p.finalized = false ∧ p.bounceCount = 0 ∧ p.lastAttenuation = 1 ∧
  p.lastDelay = 0 ∧ p.lastDistance = 0 ∧ p.lastPoint = Vec3.zero

instance (p : AudioPath) : Decidable (PredE6 p) := by unfold PredE6; infer_instance

/-- A controller state whose stored pose matches `baseEnv`'s pose and that
holds one stored reflection (fixture for the staleness witness). -/
def csMatched : ControllerState :=
  { initialControllerState with reflections := 1, withDiffusion := true }

/-- The controller state left by a completed free-space trace: the first
call recalculates (no prior trace), the trace finds nothing, and the
stored reflection count is 0. -/
def csAfterFreeTrace : ControllerState :=
  (newCalculateAllReflections baseEnv initialControllerState 3).getD initialControllerState

/-- The chain-injector bounce records of a one-reflection chain (fixture
for the witness below). -/
def echoFixture : List EchoBounce :=
  echoReflections envInject Vec3.zero [⟨1, 0, 0⟩] ⟨4, fun i => [1000, 2000].getD i 0⟩ 0 48000

/-- The 14 seed paths of the explosion fixture. -/
def explosionSeeds : List AudioPath :=
  (seedState envExplosion Vec3.zero quatIdentity 0).audioPaths

/-! ## Claim theorems -/

set_option allowUnsafeReducibility true

attribute [local semireducible] Rat.mul Rat.add Rat.sub Rat.neg Rat.div Rat.inv

/-- **C1** (code_bug evidence).  In the chain engine against the
`envChainWall` fixture, the very first bounce already computes
`totalDelay` from `earDistance + hitDistance` (the inner shadowing local,
giving 5997 ms) and not from `earDistance + pathDistance` with
`pathDistance` the cumulative sum of segment lengths (which the claim
prescribes and which gives 5994 ms): the outer `totalDistance`
accumulator is dead. -/
theorem chain_delay_uses_shadowed_distance :
    chainWallBounce1.accepted = true ∧
    chainWallBounce1.totalDelay = 5997 ∧
    getDelayFromDistance envChainWall
        (chainWallBounce1.earDistance + chainWallBounce1.cumulativeDistance) = 5994 ∧
    chainWallBounce1.totalDelay ≠
      getDelayFromDistance envChainWall
        (chainWallBounce1.earDistance + chainWallBounce1.cumulativeDistance) := by
  decide

/-- **C8** (code_bug evidence).  `injectAudiblePoint` performs no size
validation: fed a 6-byte batch (not a multiple of
`channels * sizeof(int16) = 4`), it attenuates the one whole stereo frame
and submits two buffers to the mix sink (left ear first), each declared as
3 samples — the batch is partially mixed, not rejected. -/
theorem inject_malformed_batch_not_rejected :
    malformedBatch.sizeBytes % (2 * NUMBER_OF_CHANNELS) ≠ 0 ∧
    injectAudiblePoint envInject injectPointHalf malformedBatch 0 48000 =
      [⟨144, [500, 0], 3⟩, ⟨144, [0, 1000], 3⟩] := by
  decide

/-- **C3** (counterexample).  Against the `envZeroHit` fixture the
diffusion trace terminates, and a `PathState` ends the trace with
`bounceDepth = 11 > MAX_BOUNCES`: the guard `bounceCount > 10` lets a path
with 10 bounces continue once more before terminating it. -/
theorem trace_ends_with_bounce_count_eleven :
    (analyzePaths envZeroHit Vec3.zero quatIdentity Vec3.zero 0 15).map
        (fun s => s.audioPaths.any
          (fun p => decide (ABSOLUTE_MAXIMUM_BOUNCE_COUNT < p.bounceCount))) =
      some true := by
  decide

/-- **C4** (counterexample).  Against the `envDiffusionWall` fixture (hit
distance 1000, so `|start - end| = 999`), the step stores
`lastDelay = 3000 = δ + delayFromDistance(hitDistance)` while the claim's
`δ + delayFromDistance(|start − end|)` evaluates to 2997: the delay update
uses the raw hit distance, not the shortened segment that the distance
update uses. -/
theorem step_delay_not_from_shortened_segment :
    (pathOutcome envDiffusionWall Vec3.zero seedRightPath 0).path.lastDelay = 3000 ∧
    seedRightPath.lastDelay +
        getDelayFromDistance envDiffusionWall
          (envDiffusionWall.dist seedRightPath.lastPoint
            (stepEndPoint seedRightPath ⟨1000, BoxFace.MAX_X_FACE⟩)) = 2997 ∧
    (3000 : ℚ) ≠ 2997 := by
  decide

/-- **C5** (counterexample).  With a 1-metre ear distance and sample rate
48300, the ear delay is 3 ms and `3 · 48300 / 1000 = 144.9`: the injector
anchors the submission at `sampleTime + 144` (C truncation toward zero,
`int delay = msecs * rate / MSECS_PER_SECOND`), while rounding to the
nearest integer as the claim states would give 145. -/
theorem inject_delay_truncates_not_rounds :
    ((injectAudiblePoint envInject injectPointHalf ⟨4, fun i => [1000, 2000].getD i 0⟩
          0 48300).headD dummySubmission).sampleTimeAnchor = 144 ∧
    ratTrunc ((getDelayFromDistance envInject 1 + injectPointHalf.delay) * 48300 /
        MSECS_PER_SECOND) = 144 ∧
    roundNearestSpec ((getDelayFromDistance envInject 1 + injectPointHalf.delay) * 48300 /
        MSECS_PER_SECOND) = 145 ∧
    (144 : ℤ) ≠ 145 := by
  decide

/-- **C9** (confirmed).  With surface-normal jitter disabled,
`getFaceNormal` returns the exact axis-aligned unit normal for every face
tag, whatever the RNG stream holds and wherever it stands: the normal-axis
component is ±1 and both tangential components are exactly 0, so every
bounce is purely specular and independent of the RNG. -/
theorem face_normal_specular_when_jitter_off (env : Env) (face : BoxFace) (k : ℕ)
    (h : env.menuSlightlyRandomSurfaces = false) :
    (getFaceNormal env face k).1 = axisFaceNormal face := by
  cases face <;> simp [getFaceNormal, axisFaceNormal, faceDirectedVec, h]

/-- Witness for `face_normal_specular_when_jitter_off` at the `baseEnv`
fixture and the `MIN_X` face. -/
theorem face_normal_specular_witness :
    baseEnv.menuSlightlyRandomSurfaces = false ∧
    (getFaceNormal baseEnv BoxFace.MIN_X_FACE 0).1 = axisFaceNormal BoxFace.MIN_X_FACE :=
  ⟨rfl, face_normal_specular_when_jitter_off baseEnv BoxFace.MIN_X_FACE 0 rfl⟩

lemma getDelayFromDistance_nonneg (env : Env) (d : ℚ) (hd : 0 ≤ d)
    (hms : 0 ≤ env.soundMsPerMeter) (hpre : 0 ≤ env.preDelay) :
    0 ≤ getDelayFromDistance env d := by
  unfold getDelayFromDistance
  split
  · exact add_nonneg (mul_nonneg hms hd) hpre
  · exact mul_nonneg hms hd

theorem diffusion_emission_iff (env : Env) (listenerPosition : Vec3) (path : AudioPath)
    (hit : RayHit) (k : ℕ)
    (hhit : env.findRayIntersection path.lastPoint path.lastDirection = some hit)
    (hbounce : path.bounceCount ≤ ABSOLUTE_MAXIMUM_BOUNCE_COUNT)
    (hdist : ∀ a b, 0 ≤ env.dist a b)
    (hms : 0 ≤ env.soundMsPerMeter)
    (hpre : 0 ≤ env.preDelay) :
    (pathOutcome env listenerPosition path k).emitted =
      (if MINIMUM_ATTENUATION_TO_REFLECT <
            (stepReflectiveAttenuation env path + stepTotalDiffusionAttenuation env path) *
              stepToListenerAttenuation env listenerPosition path hit ∧
          stepTotalDelay env listenerPosition path hit < MAXIMUM_DELAY_MS then
        [{ location := stepEndPoint path hit
           delay := stepCurrentDelay env path hit
           attenuation := stepReflectiveAttenuation env path +
             stepTotalDiffusionAttenuation env path
           distance := stepPathDistance env path hit }]
      else []) ∧
    ∀ q ∈ (pathOutcome env listenerPosition path k).emitted, q.delay < MAXIMUM_DELAY_MS := by
  have hb' : ¬ (path.bounceCount > ABSOLUTE_MAXIMUM_BOUNCE_COUNT) := by omega
  have hmain : (pathOutcome env listenerPosition path k).emitted =
      (if MINIMUM_ATTENUATION_TO_REFLECT <
            (stepReflectiveAttenuation env path + stepTotalDiffusionAttenuation env path) *
              stepToListenerAttenuation env listenerPosition path hit ∧
          stepTotalDelay env listenerPosition path hit < MAXIMUM_DELAY_MS then
        [{ location := stepEndPoint path hit
           delay := stepCurrentDelay env path hit
           attenuation := stepReflectiveAttenuation env path +
             stepTotalDiffusionAttenuation env path
           distance := stepPathDistance env path hit }]
      else []) := by
    simp only [pathOutcome, hb', if_false, hhit, stepEndPoint, stepPathDistance,
      stepCurrentDelay, stepReflectiveAttenuation, stepTotalDiffusionAttenuation,
      stepToListenerDistance, stepTotalDelay, stepToListenerAttenuation]
    split_ifs <;> rfl
  refine ⟨hmain, ?_⟩
  intro q hq
  rw [hmain] at hq
  split_ifs at hq with hcond
  · simp only [List.mem_singleton] at hq
    subst hq
    have h0 : 0 ≤ getDelayFromDistance env
        (stepToListenerDistance env listenerPosition path hit) :=
      getDelayFromDistance_nonneg env _ (hdist _ _) hms hpre
    have := hcond.2
    unfold stepTotalDelay at this
    simp only []
    linarith
  · simp at hq

theorem diffusion_emission_iff_witness :
    (pathOutcome envZeroHit Vec3.zero seedRightPath 0).emitted =
      (if MINIMUM_ATTENUATION_TO_REFLECT <
            (stepReflectiveAttenuation envZeroHit seedRightPath +
              stepTotalDiffusionAttenuation envZeroHit seedRightPath) *
              stepToListenerAttenuation envZeroHit Vec3.zero seedRightPath
                ⟨0, BoxFace.MAX_X_FACE⟩ ∧
          stepTotalDelay envZeroHit Vec3.zero seedRightPath ⟨0, BoxFace.MAX_X_FACE⟩ <
            MAXIMUM_DELAY_MS then
        [{ location := stepEndPoint seedRightPath ⟨0, BoxFace.MAX_X_FACE⟩
           delay := stepCurrentDelay envZeroHit seedRightPath ⟨0, BoxFace.MAX_X_FACE⟩
           attenuation := stepReflectiveAttenuation envZeroHit seedRightPath +
             stepTotalDiffusionAttenuation envZeroHit seedRightPath
           distance := stepPathDistance envZeroHit seedRightPath ⟨0, BoxFace.MAX_X_FACE⟩ }]
      else []) ∧
    ∀ q ∈ (pathOutcome envZeroHit Vec3.zero seedRightPath 0).emitted,
      q.delay < MAXIMUM_DELAY_MS :=
  diffusion_emission_iff envZeroHit Vec3.zero seedRightPath ⟨0, BoxFace.MAX_X_FACE⟩ 0 rfl
    (by decide)
    (fun a b => by
      show (0:ℚ) ≤ taxicab a b
      unfold taxicab
      positivity)
    (by decide) (by decide)

theorem step_distance_delay_update (env : Env) (listenerPosition : Vec3) (path : AudioPath)
    (hit : RayHit) (k : ℕ)
    (hhit : env.findRayIntersection path.lastPoint path.lastDirection = some hit)
    (hbounce : path.bounceCount ≤ ABSOLUTE_MAXIMUM_BOUNCE_COUNT)
    (hemit : MINIMUM_ATTENUATION_TO_REFLECT <
        (stepReflectiveAttenuation env path + stepTotalDiffusionAttenuation env path) *
          stepToListenerAttenuation env listenerPosition path hit ∧
        stepTotalDelay env listenerPosition path hit < MAXIMUM_DELAY_MS)
    (hcont : MINIMUM_ATTENUATION_TO_REFLECT <
        stepReflectiveAttenuation env path *
          stepToListenerAttenuation env listenerPosition path hit) :
    (pathOutcome env listenerPosition path k).path.lastDistance =
        stepPathDistance env path hit ∧
    (pathOutcome env listenerPosition path k).path.lastDelay =
        stepCurrentDelay env path hit ∧
    stepPathDistance env path hit =
        path.lastDistance + env.dist path.lastPoint (stepEndPoint path hit) ∧
    stepCurrentDelay env path hit =
        path.lastDelay + getDelayFromDistance env hit.distance := by
  have hb' : ¬ (path.bounceCount > ABSOLUTE_MAXIMUM_BOUNCE_COUNT) := by omega
  simp only [stepPathDistance, stepCurrentDelay, stepReflectiveAttenuation,
    stepTotalDiffusionAttenuation, stepToListenerAttenuation, stepToListenerDistance,
    stepTotalDelay, stepEndPoint] at hemit hcont ⊢
  simp only [pathOutcome, hb', if_false, hhit]
  rw [if_pos hemit, if_pos hcont]
  simp

theorem step_distance_delay_update_witness :
    (pathOutcome envDiffusionWall Vec3.zero seedRightPath 0).path.lastDistance =
        stepPathDistance envDiffusionWall seedRightPath ⟨1000, BoxFace.MAX_X_FACE⟩ ∧
    (pathOutcome envDiffusionWall Vec3.zero seedRightPath 0).path.lastDelay =
        stepCurrentDelay envDiffusionWall seedRightPath ⟨1000, BoxFace.MAX_X_FACE⟩ ∧
    stepPathDistance envDiffusionWall seedRightPath ⟨1000, BoxFace.MAX_X_FACE⟩ =
        seedRightPath.lastDistance + envDiffusionWall.dist seedRightPath.lastPoint
          (stepEndPoint seedRightPath ⟨1000, BoxFace.MAX_X_FACE⟩) ∧
    stepCurrentDelay envDiffusionWall seedRightPath ⟨1000, BoxFace.MAX_X_FACE⟩ =
        seedRightPath.lastDelay + getDelayFromDistance envDiffusionWall 1000 :=
  step_distance_delay_update envDiffusionWall Vec3.zero seedRightPath
    ⟨1000, BoxFace.MAX_X_FACE⟩ 0 rfl (by decide) (by decide) (by decide)

theorem inject_ear_delay_attenuation_formulas (env : Env) (pt : AudioPoint)
    (batch : AudioBatch) (sampleTime : ℕ) (sampleRate : ℤ) :
    injectAudiblePoint env pt batch sampleTime sampleRate =
      [⟨addUInt32 sampleTime
          (ratTrunc ((getDelayFromDistance env (env.dist pt.location (earPositions env).1) +
              pt.delay) * (sampleRate : ℚ) / MSECS_PER_SECOND)),
        (attenuatedBuffers env batch
          (pt.attenuation * getDistanceAttenuationCoefficient env
            (env.dist pt.location (earPositions env).1 + pt.distance))
          (pt.attenuation * getDistanceAttenuationCoefficient env
            (env.dist pt.location (earPositions env).2 + pt.distance))).1,
        batch.sizeBytes / 2⟩,
       ⟨addUInt32 sampleTime
          (ratTrunc ((getDelayFromDistance env (env.dist pt.location (earPositions env).2) +
              pt.delay) * (sampleRate : ℚ) / MSECS_PER_SECOND)),
        (attenuatedBuffers env batch
          (pt.attenuation * getDistanceAttenuationCoefficient env
            (env.dist pt.location (earPositions env).1 + pt.distance))
          (pt.attenuation * getDistanceAttenuationCoefficient env
            (env.dist pt.location (earPositions env).2 + pt.distance))).2,
        batch.sizeBytes / 2⟩] ∧
    (∀ d : ℤ, 0 ≤ (sampleTime : ℤ) + d → (sampleTime : ℤ) + d < 4294967296 →
      addUInt32 sampleTime d = ((sampleTime : ℤ) + d).toNat) := by
  constructor
  · rfl
  · intro d h0 h1
    unfold addUInt32
    rw [Int.emod_eq_of_lt h0 h1]

theorem inject_ear_delay_attenuation_witness :
    addUInt32 100 144 = ((100 : ℤ) + 144).toNat :=
  (inject_ear_delay_attenuation_formulas envInject injectPointHalf malformedBatch
      100 48000).2 144 (by decide) (by decide)

lemma getD_mem_or_eq {α : Type} (l : List α) (i : ℕ) (d : α) :
    l.getD i d ∈ l ∨ l.getD i d = d := by
  induction l generalizing i with
  | nil => right; cases i <;> rfl
  | cons a t ih =>
    cases i with
    | zero => left; exact List.mem_cons_self a t
    | succ i =>
      rcases ih i with h | h
      · left; exact List.mem_cons_of_mem a h
      · right; exact h

lemma spawnDiffusions_bounce_zero (env : Env) (e : Vec3) (face : BoxFace)
    (a d s : ℚ) : ∀ (n k : ℕ), ∀ c ∈ (spawnDiffusions env e face a d s n k).1,
      c.bounceCount = 0 := by
  intro n
  induction n with
  | zero => intro k c hc; simp [spawnDiffusions] at hc
  | succ n ih =>
    intro k c hc
    simp only [spawnDiffusions, List.mem_cons] at hc
    rcases hc with rfl | hc
    · rfl
    · exact ih (k + 3) c hc

/-- Structural characterization of one path step: the step either keeps the
bounce count or increments it from a value that passed the `> 10` guard,
and the children are either empty or a diffusion fan-out. -/
lemma pathOutcome_bounce_children (env : Env) (l : Vec3) (p : AudioPath) (k : ℕ) :
    ((pathOutcome env l p k).path.bounceCount = p.bounceCount ∨
      ((pathOutcome env l p k).path.bounceCount = p.bounceCount + 1 ∧
        ¬ p.bounceCount > ABSOLUTE_MAXIMUM_BOUNCE_COUNT)) ∧
    ((pathOutcome env l p k).children = [] ∨
      ∃ e f a d s n k', (pathOutcome env l p k).children =
        (spawnDiffusions env e f a d s n k').1) := by
  by_cases hb : p.bounceCount > ABSOLUTE_MAXIMUM_BOUNCE_COUNT
  · simp only [pathOutcome, if_pos hb]
    exact ⟨Or.inl (by trivial), Or.inl (by trivial)⟩
  · cases hf : env.findRayIntersection p.lastPoint p.lastDirection with
    | none =>
      simp only [pathOutcome, if_neg hb, hf]
      exact ⟨Or.inl (by trivial), Or.inl (by trivial)⟩
    | some hit =>
      simp only [pathOutcome, if_neg hb, hf]
      split_ifs
      all_goals refine ⟨?_, ?_⟩
      all_goals first
        | exact Or.inl (by trivial)
        | exact Or.inl rfl
        | exact Or.inr ⟨rfl, hb⟩
        | exact Or.inr ⟨_, _, _, _, _, _, _, rfl⟩

/-- One step never pushes a path's bounce count beyond `MAX_BOUNCES + 1`. -/
lemma pathOutcome_bounce_le (env : Env) (l : Vec3) (p : AudioPath) (k : ℕ)
    (h : p.bounceCount ≤ ABSOLUTE_MAXIMUM_BOUNCE_COUNT + 1) :
    (pathOutcome env l p k).path.bounceCount ≤ ABSOLUTE_MAXIMUM_BOUNCE_COUNT + 1 ∧
    ∀ c ∈ (pathOutcome env l p k).children,
      c.bounceCount ≤ ABSOLUTE_MAXIMUM_BOUNCE_COUNT + 1 := by
  obtain ⟨hpath, hchild⟩ := pathOutcome_bounce_children env l p k
  constructor
  · rcases hpath with h' | ⟨h', hb⟩ <;> omega
  · rcases hchild with h' | ⟨e, f, a, d, s, n, k', h'⟩
    · simp [h']
    · rw [h']
      intro c hc
      have := spawnDiffusions_bounce_zero env e f a d s n k' c hc
      omega

/-- `processPath` preserves the bounce-count bound over all stored paths. -/
lemma processPath_bounce_le (env : Env) (l : Vec3) (st : ReflectorState) (i : ℕ)
    (hall : ∀ p ∈ st.audioPaths, p.bounceCount ≤ ABSOLUTE_MAXIMUM_BOUNCE_COUNT + 1) :
    ∀ p ∈ (processPath env l st i).1.audioPaths,
      p.bounceCount ≤ ABSOLUTE_MAXIMUM_BOUNCE_COUNT + 1 := by
  have hread : (st.audioPaths.getD i dummyPath).bounceCount ≤
      ABSOLUTE_MAXIMUM_BOUNCE_COUNT + 1 := by
    rcases getD_mem_or_eq st.audioPaths i dummyPath with h | h
    · exact hall _ h
    · rw [h]; decide
  by_cases hfin : (st.audioPaths.getD i dummyPath).finalized = true
  · simpa only [processPath, if_pos hfin] using hall
  · simp only [processPath, if_neg hfin]
    intro p hp
    simp only [List.mem_append] at hp
    rcases hp with hp | hp
    · rcases List.mem_or_eq_of_mem_set hp with hp | hp
      · exact hall p hp
      · subst hp
        exact (pathOutcome_bounce_le env l _ _ hread).1
    · exact (pathOutcome_bounce_le env l _ _ hread).2 p hp

/-- `processFrom` (the step's index loop) preserves the bounce-count bound. -/
lemma processFrom_bounce_le (env : Env) (l : Vec3) :
    ∀ (is : List ℕ) (st : ReflectorState) (acc : ℕ),
      (∀ p ∈ st.audioPaths, p.bounceCount ≤ ABSOLUTE_MAXIMUM_BOUNCE_COUNT + 1) →
      ∀ p ∈ (processFrom env l st acc is).1.audioPaths,
        p.bounceCount ≤ ABSOLUTE_MAXIMUM_BOUNCE_COUNT + 1 := by
  intro is
  induction is with
  | nil => intro st acc hall; simpa [processFrom] using hall
  | cons i rest ih =>
    intro st acc hall
    simp only [processFrom]
    exact ih _ _ (processPath_bounce_le env l st i hall)

/-- The trace loop preserves the bounce-count bound into its final state. -/
lemma analyzeLoop_bounce_le (env : Env) (l : Vec3) :
    ∀ (fuel : ℕ) (st s : ReflectorState),
      (∀ p ∈ st.audioPaths, p.bounceCount ≤ ABSOLUTE_MAXIMUM_BOUNCE_COUNT + 1) →
      analyzeLoop env l fuel st = some s →
      ∀ p ∈ s.audioPaths, p.bounceCount ≤ ABSOLUTE_MAXIMUM_BOUNCE_COUNT + 1 := by
  intro fuel
  induction fuel with
  | zero => intro st s _ h; simp [analyzeLoop] at h
  | succ n ih =>
    intro st s hall h
    simp only [analyzeLoop] at h
    split at h
    · cases h
      exact processFrom_bounce_le env l _ _ _ hall
    · exact ih _ _ (processFrom_bounce_le env l _ _ _ hall) h

/-- Every seeded path starts with bounce count 0. -/
lemma seedState_bounce_zero (env : Env) (origin : Vec3) (orientation : Quat) (k : ℕ) :
    ∀ p ∈ (seedState env origin orientation k).audioPaths, p.bounceCount = 0 := by
  have gen : ∀ (dirs : List Vec3) (st : ReflectorState) (pre : ℚ),
      (∀ p ∈ st.audioPaths, p.bounceCount = 0) →
      ∀ p ∈ (dirs.foldl (fun st direction => addSoundSource st origin direction 1 pre 0)
          st).audioPaths, p.bounceCount = 0 := by
    intro dirs
    induction dirs with
    | nil => intro st pre hall; simpa using hall
    | cons d rest ih =>
      intro st pre hall
      simp only [List.foldl_cons]
      refine ih _ pre ?_
      intro p hp
      simp only [addSoundSource, List.mem_append, List.mem_singleton] at hp
      rcases hp with hp | hp
      · exact hall p hp
      · subst hp; rfl
  intro p hp
  exact gen (seedDirections env orientation) ⟨[], [], k⟩ _ (by simp) p hp

/-- **C3** (amended).  For every diffusion trace that completes, no
`PathState` ends the trace with `bounceDepth > MAX_BOUNCES + 1`: a path
whose bounce count exceeds `MAX_BOUNCES` is finalized at the start of its
step without another increment, and the count is only incremented when the
path continues, so the largest value a finished path can carry is 11, not
10. -/
theorem trace_bounce_le_max_succ (env : Env) (origin : Vec3) (orientation : Quat)
    (listenerPosition : Vec3) (k fuel : ℕ) (s : ReflectorState)
    (h : analyzePaths env origin orientation listenerPosition k fuel = some s) :
    ∀ p ∈ s.audioPaths, p.bounceCount ≤ ABSOLUTE_MAXIMUM_BOUNCE_COUNT + 1 := by
  refine analyzeLoop_bounce_le env listenerPosition fuel _ s ?_ h
  intro p hp
  have := seedState_bounce_zero env origin orientation k p hp
  omega

set_option maxRecDepth 8000 in
/-- Witness for `trace_bounce_le_max_succ`: the completed `envZeroHit`
trace (14 paths, each ending at bounce count 11) satisfies the bound. -/
theorem trace_bounce_le_max_succ_witness :
    ((analyzePaths envZeroHit Vec3.zero quatIdentity Vec3.zero 0 15).getD
        emptyReflectorState).audioPaths.all
      (fun p => decide (p.bounceCount ≤ ABSOLUTE_MAXIMUM_BOUNCE_COUNT + 1)) = true := by
  refine List.all_eq_true.mpr ?_
  intro p hp
  exact decide_eq_true
    (trace_bounce_le_max_succ envZeroHit Vec3.zero quatIdentity Vec3.zero 0 15
      ((analyzePaths envZeroHit Vec3.zero quatIdentity Vec3.zero 0 15).getD
        emptyReflectorState) (by decide) p hp)

/-- **C7** (amended).  The controller's staleness gate is exactly the
spec's staleness disjunction with "no prior trace" read as "the stored
reflection count is zero"; and a non-stale call is a no-op: it leaves the
cached controller state unchanged, in both the diffusion entry
(`newCalculateAllReflections`) and the chain entry
(`calculateAllReflections`). -/
theorem staleness_characterization (env : Env) (cs : ControllerState) (fuel : ℕ) :
    (∀ (origin : Vec3) (orientation : Quat) (listenerPosition : Vec3) (withDiffusion : Bool),
      shouldRecalc env cs origin orientation listenerPosition withDiffusion =
        specStale env (cs.reflections != 0) cs origin orientation listenerPosition
          withDiffusion) ∧
    (shouldRecalc env cs (currentPose env).1 (currentPose env).2.1 (currentPose env).2.2
        true = false →
      newCalculateAllReflections env cs fuel = some cs) ∧
    (shouldRecalc env cs (currentPose env).1 (currentPose env).2.1 (currentPose env).2.2
        false = false →
      calculateAllReflections env cs = cs) := by
  refine ⟨?_, ?_, ?_⟩
  · intro origin orientation listenerPosition withDiffusion
    simp only [shouldRecalc, specStale, bne, Bool.not_not]
  · intro h
    simp only [newCalculateAllReflections, h, Bool.false_eq_true, if_false]
  · intro h
    simp only [calculateAllReflections, h, Bool.false_eq_true, if_false]

/-- Witness for `staleness_characterization`: with a matching pose, the
same flag and a nonzero stored reflection count, the diffusion entry
returns the state unchanged. -/
theorem staleness_characterization_witness :
    newCalculateAllReflections baseEnv csMatched 3 = some csMatched :=
  (staleness_characterization baseEnv csMatched 3).2.1 (by decide)

/-- **C7** (counterexample).  After a completed free-space trace with the
pose unchanged and the engine flag unchanged, the spec's staleness (with a
prior trace present) is false, yet the code's gate fires again: it tests
`_reflections == 0`, not "no prior trace". -/
theorem staleness_gates_on_reflections_not_prior_trace :
    (newCalculateAllReflections baseEnv initialControllerState 3).isSome = true ∧
    specStale baseEnv true csAfterFreeTrace (currentPose baseEnv).1
      (currentPose baseEnv).2.1 (currentPose baseEnv).2.2 true = false ∧
    shouldRecalc baseEnv csAfterFreeTrace (currentPose baseEnv).1
      (currentPose baseEnv).2.1 (currentPose baseEnv).2.2 true = true := by
  decide

/-- The per-bounce invariant of `echoReflections`: starting from equal
accumulators, every produced bounce record carries equal left and right
path-distance accumulators, and its per-ear delays come from those
accumulators plus the respective ear distance. -/
lemma echoReflectionsLoop_left_eq_right (env : Env) (batch : AudioBatch)
    (sampleTime : ℕ) (sampleRate : ℤ) (lep rep : Vec3) :
    ∀ (refl : List Vec3) (start : Vec3) (d : ℚ) (n : ℕ),
      ∀ b ∈ echoReflectionsLoop env batch sampleTime sampleRate lep rep start d d n refl,
        b.leftDistance = b.rightDistance ∧
        b.leftEarDelayMsecs = getDelayFromDistance env (b.leftEarDistance + b.leftDistance) ∧
        b.rightEarDelayMsecs = getDelayFromDistance env (b.rightEarDistance + b.rightDistance) := by
  intro refl
  induction refl with
  | nil => intro start d n b hb; simp [echoReflectionsLoop] at hb
  | cons e rest ih =>
    intro start d n b hb
    simp only [echoReflectionsLoop, List.mem_cons] at hb
    rcases hb with rfl | hb
    · exact ⟨rfl, rfl, rfl⟩
    · exact ih e (d + env.dist start e) (n + 1) b hb

/-- **C10** (confirmed).  In the chain-engine injector, after every bounce
the accumulated left-ear path distance equals the accumulated right-ear
path distance (both add the same `|start − end|` each bounce), so the left
and right contributions of a bounce differ only through the ear-to-point
distances entering the final delay and attenuation. -/
theorem echo_left_right_distance_equal (env : Env) (origin : Vec3)
    (reflections : List Vec3) (batch : AudioBatch) (sampleTime : ℕ) (sampleRate : ℤ) :
    ∀ b ∈ echoReflections env origin reflections batch sampleTime sampleRate,
      b.leftDistance = b.rightDistance ∧
      b.leftEarDelayMsecs = getDelayFromDistance env (b.leftEarDistance + b.leftDistance) ∧
      b.rightEarDelayMsecs = getDelayFromDistance env (b.rightEarDistance + b.rightDistance) := by
  intro b hb
  simp only [echoReflections] at hb
  exact echoReflectionsLoop_left_eq_right env batch sampleTime sampleRate _ _
    reflections origin 0 0 b hb

/-- Witness for `echo_left_right_distance_equal` at the one-bounce
fixture. -/
theorem echo_left_right_distance_equal_witness :
    (echoFixture.headD dummyEchoBounce).leftDistance =
      (echoFixture.headD dummyEchoBounce).rightDistance :=
  (echo_left_right_distance_equal envInject Vec3.zero [⟨1, 0, 0⟩]
      ⟨4, fun i => [1000, 2000].getD i 0⟩ 0 48000
      (echoFixture.headD dummyEchoBounce) (by decide)).1

/-- Under the explosion fixture, every `PredE6` path dies into exactly one
`explosionChild` (also `PredE6`), emitting one audible point and consuming
three RNG draws: the reflective share is 0 (so the path finalizes) while
the single diffusion child keeps the full attenuation 1. -/
lemma pathOutcomeE6 (p : AudioPath) (k : ℕ) (hp : PredE6 p) :
    pathOutcome envExplosion Vec3.zero p k =
      ⟨{ p with reflections := p.reflections ++ [Vec3.zero], finalized := true },
        [explosionChild], [explosionEmit], k + 3⟩ := by
  obtain ⟨h1, h2, h3, h4, h5, h6⟩ := hp
  have hb : ¬ p.bounceCount > ABSOLUTE_MAXIMUM_BOUNCE_COUNT := by
    rw [h2]; decide
  have hend : Vec3.add p.lastPoint
      (Vec3.smul (((0:ℚ)) * SLIGHTLY_SHORT) p.lastDirection) = Vec3.zero := by
    rw [h6]
    simp [Vec3.add, Vec3.smul, Vec3.zero]
  simp only [pathOutcome, if_neg hb,
    show envExplosion.findRayIntersection p.lastPoint p.lastDirection =
      some ⟨0, BoxFace.MAX_X_FACE⟩ from rfl]
  simp only [h3, h4, h5, h6] at hend ⊢
  rw [hend]
  norm_num [envExplosion, baseEnv, getSurfaceCharacteristics, getDelayFromDistance,
    getDistanceAttenuationCoefficient, taxicab, Vec3.zero, spawnDiffusions, mkAudioPath,
    explosionChild, explosionEmit, getFaceNormal, faceDirectedVec,
    MINIMUM_ATTENUATION_TO_REFLECT, MAXIMUM_DELAY_MS]

lemma getD_mem_of_lt {α : Type} (l : List α) (i : ℕ) (d : α) (h : i < l.length) :
    l.getD i d ∈ l := by
  induction l generalizing i with
  | nil => simp at h
  | cons a t ih =>
    cases i with
    | zero => exact List.mem_cons_self a t
    | succ i => exact List.mem_cons_of_mem a (ih i (by simpa using h))

lemma getD_append_length {α : Type} (G : List α) (x : α) (t : List α) (d : α) :
    (G ++ x :: t).getD G.length d = x := by
  induction G with
  | nil => rfl
  | cons a G ih => simpa [List.getD] using ih

lemma set_append_length {α : Type} (G : List α) (x y : α) (t : List α) :
    (G ++ x :: t).set G.length y = G ++ y :: t := by
  induction G with
  | nil => rfl
  | cons a G ih => simp [List.set, ih]

/-- `processPath` at an index holding a `PredE6` path, under the explosion
fixture: the path is finalized in place, one child and one audible point
are appended, three RNG draws are consumed, and the path counts as
active. -/
lemma processPathE6 (G Q : List AudioPath) (q : AudioPath) (pts : List AudioPoint)
    (k : ℕ) (hq : PredE6 q) :
    processPath envExplosion Vec3.zero ⟨G ++ q :: Q, pts, k⟩ G.length =
      (⟨(G ++ { q with reflections := q.reflections ++ [Vec3.zero], finalized := true } :: Q)
          ++ [explosionChild],
        pts ++ [explosionEmit], k + 3⟩, true) := by
  unfold processPath
  rw [show (⟨G ++ q :: Q, pts, k⟩ : ReflectorState).audioPaths = G ++ q :: Q from rfl]
  rw [getD_append_length]
  rw [if_neg (by rw [hq.1]; exact Bool.false_ne_true)]
  rw [show (⟨G ++ q :: Q, pts, k⟩ : ReflectorState).rngIndex = k from rfl]
  rw [pathOutcomeE6 q k hq]
  dsimp only
  rw [set_append_length]

/-- Indices that all point at finalized paths are skipped without effect. -/
lemma processFrom_skip (env : Env) (l : Vec3) :
    ∀ (is : List ℕ) (st : ReflectorState) (acc : ℕ),
      (∀ i ∈ is, (st.audioPaths.getD i dummyPath).finalized = true) →
      processFrom env l st acc is = (st, acc) := by
  intro is
  induction is with
  | nil => intro st acc _; rfl
  | cons i rest ih =>
    intro st acc h
    have hi := h i (List.mem_cons_self i rest)
    simp only [processFrom, processPath, if_pos hi]
    simpa using ih st acc (fun j hj => h j (List.mem_cons_of_mem i hj))

lemma processFrom_append (env : Env) (l : Vec3) :
    ∀ (xs ys : List ℕ) (st : ReflectorState) (acc : ℕ),
      processFrom env l st acc (xs ++ ys) =
        processFrom env l (processFrom env l st acc xs).1
          (processFrom env l st acc xs).2 ys := by
  intro xs
  induction xs with
  | nil => intros; rfl
  | cons x xs ih =>
    intro ys st acc
    simp only [List.cons_append, processFrom]
    exact ih ys _ _

/-- The index loop over `m` consecutive `PredE6` paths: each is finalized
in place and replaced (at the tail) by one fresh `PredE6` path, so the
active count rises by exactly `m` and the tail keeps its length. -/
lemma processFromE6 :
    ∀ (m : ℕ) (G Q : List AudioPath) (pts : List AudioPoint) (k acc : ℕ),
      (∀ p ∈ G, p.finalized = true) → (∀ q ∈ Q, PredE6 q) → m ≤ Q.length →
      ∃ (G' Q' : List AudioPath),
        processFrom envExplosion Vec3.zero ⟨G ++ Q, pts, k⟩ acc (List.range' G.length m) =
          (⟨G' ++ Q', pts ++ List.replicate m explosionEmit, k + 3 * m⟩, acc + m) ∧
        (∀ p ∈ G', p.finalized = true) ∧ (∀ q ∈ Q', PredE6 q) ∧
        Q'.length = Q.length ∧ G'.length = G.length + m := by
  intro m
  induction m with
  | zero =>
    intro G Q pts k acc hG hQ _
    exact ⟨G, Q, by simp [List.range', processFrom], hG, hQ, rfl, by simp⟩
  | succ m ih =>
    intro G Q pts k acc hG hQ hm
    match Q, hQ, hm with
    | q :: Q'', hQ, hm =>
      have hq : PredE6 q := hQ q (List.mem_cons_self q Q'')
      have hstep := processPathE6 G Q'' q pts k hq
      have hG2 : ∀ p ∈ G ++ [{ q with reflections := q.reflections ++ [Vec3.zero], finalized := true }],
          p.finalized = true := by
        intro p hp
        rcases List.mem_append.mp hp with hp | hp
        · exact hG p hp
        · rcases List.mem_singleton.mp hp with rfl
          rfl
      have hQ2 : ∀ r ∈ Q'' ++ [explosionChild], PredE6 r := by
        intro r hr
        rcases List.mem_append.mp hr with hr | hr
        · exact hQ r (List.mem_cons_of_mem q hr)
        · rcases List.mem_singleton.mp hr with rfl
          exact ⟨rfl, rfl, rfl, rfl, rfl, rfl⟩
      have hm2 : m ≤ (Q'' ++ [explosionChild]).length := by
        simp only [List.length_cons] at hm
        simp only [List.length_append, List.length_singleton]
        omega
      obtain ⟨G', Q', heq, hG', hQ', hlenQ, hlenG⟩ :=
        ih (G ++ [{ q with reflections := q.reflections ++ [Vec3.zero], finalized := true }])
          (Q'' ++ [explosionChild]) (pts ++ [explosionEmit]) (k + 3) (acc + 1) hG2 hQ2 hm2
      rw [show (G ++ [({ q with reflections := q.reflections ++ [Vec3.zero], finalized := true } : AudioPath)]).length
          = G.length + 1 from by simp] at heq
      refine ⟨G', Q', ?_, hG', hQ', ?_, ?_⟩
      · rw [List.range']
        simp only [processFrom, hstep]
        rw [show ((G ++ { q with reflections := q.reflections ++ [Vec3.zero], finalized := true } :: Q'')
              ++ [explosionChild] : List AudioPath)
            = (G ++ [{ q with reflections := q.reflections ++ [Vec3.zero], finalized := true }])
              ++ (Q'' ++ [explosionChild]) from by simp]
        simp only [if_true]
        rw [heq]
        simp only [List.replicate_succ, List.append_assoc, List.singleton_append,
          Prod.mk.injEq, ReflectorState.mk.injEq]
        refine ⟨⟨trivial, trivial, by omega⟩, by omega⟩
      · simp only [List.length_append, List.length_singleton] at hlenQ
        simp only [List.length_cons]
        omega
      · simp only [List.length_append, List.length_singleton] at hlenG
        omega

/-- One full pass of `analyzePathsSingleStep` under the explosion fixture:
`|Q|` active paths are seen, all die, `|Q|` fresh children take their
place, and `|Q|` audible points are emitted. -/
lemma analyzePathsSingleStepE6 (G Q : List AudioPath) (pts : List AudioPoint) (k : ℕ)
    (hG : ∀ p ∈ G, p.finalized = true) (hQ : ∀ q ∈ Q, PredE6 q) :
    ∃ (G' Q' : List AudioPath),
      analyzePathsSingleStep envExplosion Vec3.zero ⟨G ++ Q, pts, k⟩ =
        (⟨G' ++ Q', pts ++ List.replicate Q.length explosionEmit, k + 3 * Q.length⟩,
          Q.length) ∧
      (∀ p ∈ G', p.finalized = true) ∧ (∀ q ∈ Q', PredE6 q) ∧ Q'.length = Q.length := by
  have hlen : (⟨G ++ Q, pts, k⟩ : ReflectorState).audioPaths.length =
      G.length + Q.length := by simp
  have hsplit : List.range (G.length + Q.length) =
      List.range' 0 G.length ++ List.range' G.length Q.length := by
    rw [List.range_eq_range']
    rw [show G.length + Q.length = Q.length + G.length from Nat.add_comm _ _]
    rw [← List.range'_append]
    simp
  have hskip : processFrom envExplosion Vec3.zero ⟨G ++ Q, pts, k⟩ 0
      (List.range' 0 G.length) = (⟨G ++ Q, pts, k⟩, 0) := by
    refine processFrom_skip envExplosion Vec3.zero _ _ _ ?_
    intro i hi
    have hilt : i < G.length := by
      have := List.mem_range'.mp hi
      omega
    rw [show (⟨G ++ Q, pts, k⟩ : ReflectorState).audioPaths = G ++ Q from rfl]
    rw [List.getD_append _ _ _ _ hilt]
    exact hG _ (getD_mem_of_lt G i dummyPath hilt)
  obtain ⟨G', Q', heq, hG', hQ', hlenQ, _⟩ :=
    processFromE6 Q.length G Q pts k 0 hG hQ le_rfl
  refine ⟨G', Q', ?_, hG', hQ', hlenQ⟩
  unfold analyzePathsSingleStep
  rw [hlen, hsplit, processFrom_append, hskip]
  simpa using heq

/-- The trace loop never terminates under the explosion fixture: every
pass sees a nonempty set of active paths. -/
lemma analyzeLoopE6 :
    ∀ (fuel : ℕ) (G Q : List AudioPath) (pts : List AudioPoint) (k : ℕ),
      (∀ p ∈ G, p.finalized = true) → (∀ q ∈ Q, PredE6 q) → Q ≠ [] →
      analyzeLoop envExplosion Vec3.zero fuel ⟨G ++ Q, pts, k⟩ = none := by
  intro fuel
  induction fuel with
  | zero => intros; rfl
  | succ n ih =>
    intro G Q pts k hG hQ hQne
    obtain ⟨G', Q', heq, hG', hQ', hlenQ⟩ := analyzePathsSingleStepE6 G Q pts k hG hQ
    simp only [analyzeLoop, heq]
    rw [if_neg (by simpa using List.length_pos.mpr hQne |>.ne')]
    refine ih G' Q' _ _ hG' hQ' ?_
    intro hnil
    rw [hnil] at hlenQ
    exact hQne (List.length_eq_zero.mp hlenQ.symm)

/-- **C6** (code_bug evidence).  Under the explosion fixture
(`diffusionFanout = 1`, `diffusionRatio = 1`, `absorptionRatio = 0`,
every ray hitting at distance 0) the diffusion trace never terminates:
for every fuel bound, `analyzePaths` still has active paths when the fuel
runs out — every pass replaces each of the 14 active paths by a child of
identical energy, with no active-path ceiling, no warning, and no bound on
the total path count. -/
theorem analyzePaths_explosion_never_terminates (fuel : ℕ) :
    analyzePaths envExplosion Vec3.zero quatIdentity Vec3.zero 0 fuel = none := by
  unfold analyzePaths
  rw [show seedState envExplosion Vec3.zero quatIdentity 0 =
      (⟨[] ++ explosionSeeds, [], 0⟩ : ReflectorState) from by decide]
  exact analyzeLoopE6 fuel [] explosionSeeds [] 0 (by simp) (by decide) (by decide)
